import Mathlib

/-!
Verification of the `rocketpool-pow-proxy` proxy engine of the smartnode
repository.

Part A embeds the supervisor (`main` / `app.Action` of
`rocketpool-pow-proxy`): the CLI flag set with its defaults, the two
goroutines started by the action, the gate deciding whether the WebSocket
relay is started, and the wait-group join barrier.

Part B models the `proxy` package (endpoint resolver, HTTP relay failure
policy, WebSocket relay pair) from the specification, since that package
is consumed here only through its constructors.
-/

namespace PowProxy

/-- The seven CLI string flags read by `app.Action` via `c.GlobalString`. -/
structure ProxyConfig where
  httpPort : String
  wsPort : String
  httpProviderUrl : String
  wsProviderUrl : String
  network : String
  projectId : String
  providerType : String
deriving DecidableEq, Repr

/-- The default flag values declared in `app.Flags`. -/
def defaultConfig : ProxyConfig :=
  { httpPort := "8545"
    wsPort := "8546"
    httpProviderUrl := ""
    wsProviderUrl := ""
    network := "goerli"
    projectId := ""
    providerType := "infura" }

/-- The five arguments the action passes to `proxy.NewHttpProxyServer`. -/
structure HttpServerArgs where
  port : String
  providerUrl : String
  network : String
  projectId : String
  providerType : String
deriving DecidableEq, Repr

/-- The four arguments the action passes to `proxy.NewWsProxyServer`.
`providerType` is not among them. -/
structure WsServerArgs where
  port : String
  providerUrl : String
  network : String
  projectId : String
deriving DecidableEq, Repr

/-- Arguments of the `proxy.NewHttpProxyServer` call in the HTTP goroutine. -/
def httpServerArgs (c : ProxyConfig) : HttpServerArgs :=
  { port := c.httpPort
    providerUrl := c.httpProviderUrl
    network := c.network
    projectId := c.projectId
    providerType := c.providerType }

/-- Arguments of the `proxy.NewWsProxyServer` call in the WS goroutine. -/
def wsServerArgs (c : ProxyConfig) : WsServerArgs :=
  { port := c.wsPort
    providerUrl := c.wsProviderUrl
    network := c.network
    projectId := c.projectId }

/-- The gate of the WS goroutine:
`c.GlobalString("providerType") == "infura" || c.GlobalString("wsProviderUrl") != ""`. -/
def wsRelayStarted (c : ProxyConfig) : Bool :=
  c.providerType == "infura" || c.wsProviderUrl != ""

/-- What the body of the WS goroutine does: either it constructs and starts
a WS proxy server, or it logs the HTTP-only notice. -/
inductive WsAction
  | startServer (args : WsServerArgs)
  | logHttpOnly
deriving DecidableEq, Repr

/-- The body of the WS goroutine in `app.Action`. -/
def wsGoroutine (c : ProxyConfig) : WsAction :=
  if wsRelayStarted c then
    WsAction.startServer (wsServerArgs c)
  else
    WsAction.logHttpOnly

/-- One observable step of a goroutine body, before its `wg.Done()`. -/
inductive GoStep
  | startHttpServer (args : HttpServerArgs)
  | startWsServer (args : WsServerArgs)
  | logNotice
deriving DecidableEq, Repr

/-- The HTTP goroutine body as a step list: it always constructs and starts
the HTTP proxy server. -/
def httpGoroutineSteps (c : ProxyConfig) : List GoStep :=
  [GoStep.startHttpServer (httpServerArgs c)]

/-- The WS goroutine body as a step list. -/
def wsGoroutineSteps (c : ProxyConfig) : List GoStep :=
  match wsGoroutine c with
  | WsAction.startServer a => [GoStep.startWsServer a]
  | WsAction.logHttpOnly => [GoStep.logNotice]

/-- The result of `app.Action`: the two goroutine bodies it spawns and the
error it returns. The Go action body ends in `return nil` and contains no
other return. -/
structure ActionResult where
  httpSteps : List GoStep
  wsSteps : List GoStep
  err : Option String
deriving DecidableEq, Repr

/-- `app.Action`: spawn the HTTP goroutine and the WS goroutine, wait on the
wait group, return nil. -/
def appAction (c : ProxyConfig) : ActionResult :=
  { httpSteps := httpGoroutineSteps c
    wsSteps := wsGoroutineSteps c
    err := none }

/-- `main`: `log.Fatal` exits with status 1 when `app.Run` returns an error,
otherwise the process ends with status 0. -/
def mainExitCode (c : ProxyConfig) : Nat :=
  match (appAction c).err with
  | some _ => 1
  | none => 0

end PowProxy

section ClaimA

open PowProxy

/-- C1: the supervisor starts the WebSocket relay if and only if
`providerType` equals "infura" or `wsProviderUrl` is non-empty; when neither
holds the WS goroutine only logs the HTTP-only notice and performs no
WS server start, while the HTTP goroutine still starts the HTTP relay. -/
theorem ws_relay_gating (c : ProxyConfig) :
    ((∃ a, wsGoroutine c = WsAction.startServer a) ↔
      (c.providerType = "infura" ∨ c.wsProviderUrl ≠ "")) ∧
    (c.providerType ≠ "infura" → c.wsProviderUrl = "" →
      wsGoroutine c = WsAction.logHttpOnly ∧
      ∀ a, GoStep.startWsServer a ∉ wsGoroutineSteps c) ∧
    (appAction c).httpSteps = [GoStep.startHttpServer (httpServerArgs c)] := by
  refine ⟨?_, ?_, rfl⟩
  · constructor
    · rintro ⟨a, ha⟩
      by_contra hcon
      push_neg at hcon
      have hgate : wsRelayStarted c = false := by
        simp [wsRelayStarted, hcon.1, hcon.2]
      simp [wsGoroutine, hgate] at ha
    · intro h
      have hgate : wsRelayStarted c = true := by
        rcases h with h | h
        · simp [wsRelayStarted, h]
        · simp [wsRelayStarted, h]
      exact ⟨wsServerArgs c, by simp [wsGoroutine, hgate]⟩
  · intro h1 h2
    have hgate : wsRelayStarted c = false := by
      simp [wsRelayStarted, h1, h2]
    refine ⟨by simp [wsGoroutine, hgate], ?_⟩
    intro a hmem
    simp [wsGoroutineSteps, wsGoroutine, hgate] at hmem

/-- Witness for C1 at a concrete Pocket configuration with no WS URL. -/
theorem ws_relay_gating_witness :
    wsGoroutine
      { defaultConfig with providerType := "pocket" } = WsAction.logHttpOnly := by
  have h := ws_relay_gating { defaultConfig with providerType := "pocket" }
  exact (h.2.1 (by decide) rfl).1

end ClaimA

section ClaimI

open PowProxy

/-- C9: the supervisor constructs the WS proxy server from only `wsPort`,
`wsProviderUrl`, `network` and `projectId`; `providerType` is not passed, so
two configurations that differ only in `providerType` and both start the WS
relay give the WS relay identical constructor arguments. -/
theorem ws_args_ignore_provider_type (c₁ c₂ : ProxyConfig)
    (hp : c₁.httpPort = c₂.httpPort)
    (hw : c₁.wsPort = c₂.wsPort)
    (hhu : c₁.httpProviderUrl = c₂.httpProviderUrl)
    (hwu : c₁.wsProviderUrl = c₂.wsProviderUrl)
    (hn : c₁.network = c₂.network)
    (hpid : c₁.projectId = c₂.projectId)
    (h₁ : wsRelayStarted c₁ = true)
    (h₂ : wsRelayStarted c₂ = true) :
    wsServerArgs c₁ = wsServerArgs c₂ := by
  simp [wsServerArgs, hw, hwu, hn, hpid]

/-- Witness for C9: an Infura configuration and a Pocket configuration that
agree on everything but `providerType`, both with an explicit WS URL. -/
theorem ws_args_ignore_provider_type_witness :
    wsServerArgs { defaultConfig with wsProviderUrl := "ws://x:1" } =
      wsServerArgs
        { defaultConfig with wsProviderUrl := "ws://x:1", providerType := "pocket" } :=
  ws_args_ignore_provider_type _ _ rfl rfl rfl rfl rfl rfl (by decide) (by decide)

/-- C10: with all flags at their defaults (network "goerli", providerType
"infura", empty projectId) the action starts both relays, passes the empty
projectId through to both servers, and returns no error, so the process does
not exit with a configuration error. -/
theorem defaults_start_both_relays_unvalidated :
    appAction defaultConfig =
      { httpSteps := [GoStep.startHttpServer
          { port := "8545", providerUrl := "", network := "goerli",
            projectId := "", providerType := "infura" }]
        wsSteps := [GoStep.startWsServer
          { port := "8546", providerUrl := "", network := "goerli",
            projectId := "" }]
        err := none } ∧
    (httpServerArgs defaultConfig).projectId = "" ∧
    (wsServerArgs defaultConfig).projectId = "" ∧
    mainExitCode defaultConfig = 0 := by
  refine ⟨?_, rfl, rfl, rfl⟩
  rfl

end ClaimI

namespace PowProxy

/-- Scheduler state of `app.Action`: the remaining steps of each goroutine
body, the wait-group counter (`wg.Add(2)` at the start, one `wg.Done()` per
goroutine as its body finishes), and whether `wg.Wait()` has returned. -/
structure SupState where
  httpSteps : List GoStep
  wsSteps : List GoStep
  counter : Nat
  returned : Bool
deriving DecidableEq, Repr

/-- The state right after `app.Action` spawns both goroutines. -/
def initSupState (c : ProxyConfig) : SupState :=
  { httpSteps := (appAction c).httpSteps
    wsSteps := (appAction c).wsSteps
    counter := 2
    returned := false }

/-- Interleaving semantics of the action: either goroutine executes its next
step (calling `wg.Done()` as its body ends), and `wg.Wait()` returns only
once the counter reaches zero. -/
inductive SupStep : SupState → SupState → Prop
  | http (s : SupState) (st : GoStep) (rest : List GoStep)
      (h : s.httpSteps = st :: rest) :
      SupStep s { s with
        httpSteps := rest
        counter := if rest.isEmpty then s.counter - 1 else s.counter }
  | ws (s : SupState) (st : GoStep) (rest : List GoStep)
      (h : s.wsSteps = st :: rest) :
      SupStep s { s with
        wsSteps := rest
        counter := if rest.isEmpty then s.counter - 1 else s.counter }
  | ret (s : SupState) (h : s.counter = 0) (hr : s.returned = false) :
      SupStep s { s with returned := true }

/-- Reachability of a scheduler state from the start of `app.Action`. -/
def SupReach (c : ProxyConfig) (s : SupState) : Prop :=
  Relation.ReflTransGen SupStep (initSupState c) s

/-- Wait-group invariant: the counter counts the goroutine bodies that have
not yet finished, and the action has returned only with the counter at
zero. -/
def wgInv (s : SupState) : Prop :=
  s.counter = (if s.httpSteps.isEmpty then 0 else 1) +
      (if s.wsSteps.isEmpty then 0 else 1) ∧
  (s.returned = true → s.counter = 0)

theorem wgInv_init (c : ProxyConfig) : wgInv (initSupState c) := by
  constructor
  · cases h : wsGoroutine c <;>
      simp [initSupState, appAction, httpGoroutineSteps, wsGoroutineSteps, h]
  · intro h
    simp [initSupState] at h

theorem wgInv_step {s t : SupState} (hstep : SupStep s t) (hinv : wgInv s) :
    wgInv t := by
  obtain ⟨h1, h2⟩ := hinv
  cases hstep with
  | http st rest h =>
    rw [h] at h1
    simp only [List.isEmpty_cons, Bool.false_eq_true, if_false] at h1
    constructor
    · show (if rest.isEmpty then s.counter - 1 else s.counter) =
        (if rest.isEmpty then 0 else 1) + (if s.wsSteps.isEmpty then 0 else 1)
      cases hrest : rest.isEmpty <;> simp at h1 ⊢ <;> omega
    · intro hret
      have hc := h2 hret
      exfalso
      omega
  | ws st rest h =>
    rw [h] at h1
    simp only [List.isEmpty_cons, Bool.false_eq_true, if_false] at h1
    constructor
    · show (if rest.isEmpty then s.counter - 1 else s.counter) =
        (if s.httpSteps.isEmpty then 0 else 1) + (if rest.isEmpty then 0 else 1)
      cases hrest : rest.isEmpty <;> simp at h1 ⊢ <;> omega
    · intro hret
      have hc := h2 hret
      exfalso
      omega
  | ret h hr =>
    exact ⟨h1, fun _ => h⟩

theorem wgInv_reach {c : ProxyConfig} {s : SupState} (h : SupReach c s) :
    wgInv s := by
  induction h with
  | refl => exact wgInv_init c
  | tail _ hstep ih => exact wgInv_step hstep ih

end PowProxy

section ClaimB

open PowProxy

/-- C6: the entry point joins both goroutines: in every reachable scheduler
state in which `wg.Wait()` has returned, both goroutine bodies have run to
completion; and in HTTP-only mode the WS goroutine body is just the logging
step, so it completes immediately after logging. -/
theorem supervisor_join_barrier (c : ProxyConfig) (s : SupState)
    (h : SupReach c s) (hret : s.returned = true) :
    s.httpSteps = [] ∧ s.wsSteps = [] ∧
    (wsRelayStarted c = false → wsGoroutineSteps c = [GoStep.logNotice]) := by
  obtain ⟨h1, h2⟩ := wgInv_reach h
  have hc := h2 hret
  rw [hc] at h1
  have hboth : s.httpSteps = [] ∧ s.wsSteps = [] := by
    rcases hh : s.httpSteps with _ | ⟨a, l⟩ <;>
      rcases hw : s.wsSteps with _ | ⟨b, m⟩ <;>
        rw [hh, hw] at h1 <;> simp at h1 <;> exact ⟨rfl, rfl⟩
  refine ⟨hboth.1, hboth.2, ?_⟩
  intro hgate
  simp [wsGoroutineSteps, wsGoroutine, hgate]

theorem supReach_default_final :
    SupReach defaultConfig
      { httpSteps := [], wsSteps := [], counter := 0, returned := true } := by
  have step1 : SupStep (initSupState defaultConfig)
      { httpSteps := [], wsSteps := (appAction defaultConfig).wsSteps,
        counter := 1, returned := false } := by
    have h := SupStep.http (initSupState defaultConfig)
      (GoStep.startHttpServer (httpServerArgs defaultConfig)) [] rfl
    simpa [initSupState] using h
  have step2 : SupStep
      { httpSteps := [], wsSteps := (appAction defaultConfig).wsSteps,
        counter := 1, returned := false }
      { httpSteps := [], wsSteps := [], counter := 0, returned := false } := by
    have h := SupStep.ws
      ({ httpSteps := [], wsSteps := (appAction defaultConfig).wsSteps,
         counter := 1, returned := false } : SupState)
      (GoStep.startWsServer (wsServerArgs defaultConfig)) [] (by rfl)
    simpa using h
  have step3 : SupStep
      { httpSteps := [], wsSteps := [], counter := 0, returned := false }
      { httpSteps := [], wsSteps := [], counter := 0, returned := true } := by
    have h := SupStep.ret
      ({ httpSteps := [], wsSteps := [], counter := 0, returned := false } : SupState)
      rfl rfl
    simpa using h
  exact Relation.ReflTransGen.head step1
    (Relation.ReflTransGen.head step2 (Relation.ReflTransGen.single step3))

/-- Witness for C6: a concrete full run of the default configuration in
which the action has returned with both goroutine bodies complete. -/
theorem supervisor_join_barrier_witness :
    ({ httpSteps := [], wsSteps := [], counter := 0, returned := true } :
        SupState).httpSteps = [] ∧
    ({ httpSteps := [], wsSteps := [], counter := 0, returned := true } :
        SupState).wsSteps = [] :=
  let h := supervisor_join_barrier defaultConfig
    { httpSteps := [], wsSteps := [], counter := 0, returned := true }
    supReach_default_final rfl
  ⟨h.1, h.2.1⟩

end ClaimB

namespace ProxySpec

/-- Modelled from the spec: the provider modes of the data model (spec
section 3); the `proxy` package implementing them is not under src. -/
inductive ProviderMode
  | DirectURL
  | Infura
  | Pocket
deriving DecidableEq, Repr

/-- Modelled from the spec: the two transports a resolution is made for. -/
inductive Transport
  | http
  | ws
deriving DecidableEq, Repr

/-- Modelled from the spec: the configuration-error taxonomy of spec
sections 4.1 and 7. -/
inductive ConfigErrorKind
  | MissingURL
  | UnsupportedNetwork
  | TransportUnsupported
  | MalformedURL
  | MissingCredential
deriving DecidableEq, Repr

/-- Modelled from the spec: the immutable ProxyConfig of the data model
(spec section 3). -/
structure SpecConfig where
  mode : ProviderMode
  network : String
  projectId : String
  explicitHttpUrl : String
  explicitWsUrl : String
  httpPort : String
  wsPort : String
deriving DecidableEq, Repr

/-- Modelled from the spec: the supported named chains for Infura; the spec
names mainnet and goerli as examples and leaves the full set open. -/
def supportedNetworks : List String := ["mainnet", "goerli"]

/-- Modelled from the spec: whether a network is among the supported named
chains for a mode; only Infura resolution restricts the network (spec
section 4.1). -/
def supportedFor : ProviderMode → String → Bool
  | ProviderMode.Infura, n => supportedNetworks.contains n
  | ProviderMode.Pocket, _ => true
  | ProviderMode.DirectURL, _ => true

/-- Modelled from the spec: well-formedness of an explicit URL; the spec
leaves the criterion open, modelled as containing exactly one scheme
separator. -/
def wellFormedUrl (u : String) : Bool :=
  (u.splitOn "://").length == 2

/-- Modelled from the spec: whether a projectId begins with the literal
load-balancer prefix "lb/". -/
def lbPrefixed (s : String) : Bool :=
  s.data.take 3 == ['l', 'b', '/']

/-- Modelled from the spec: the projectId with the leading "lb/" stripped. -/
def lbStripped (s : String) : String :=
  String.mk (s.data.drop 3)

/-- The transport-specific explicit URL of a configuration. -/
def explicitUrlFor (cfg : SpecConfig) : Transport → String
  | Transport.http => cfg.explicitHttpUrl
  | Transport.ws => cfg.explicitWsUrl

/-- Modelled from the spec: the endpoint resolver contract
`resolve(config, transport) -> URL | ConfigError` of spec section 4.1. -/
def resolve (cfg : SpecConfig) (t : Transport) : Except ConfigErrorKind String :=
  match cfg.mode with
  | ProviderMode.DirectURL =>
      let u := explicitUrlFor cfg t
      if u = "" then Except.error ConfigErrorKind.MissingURL
      else if wellFormedUrl u then Except.ok u
      else Except.error ConfigErrorKind.MalformedURL
  | ProviderMode.Infura =>
      if supportedNetworks.contains cfg.network then
        match t with
        | Transport.http =>
            Except.ok ("https://" ++ cfg.network ++ ".infura.io/v3/" ++ cfg.projectId)
        | Transport.ws =>
            Except.ok ("wss://" ++ cfg.network ++ ".infura.io/ws/v3/" ++ cfg.projectId)
      else Except.error ConfigErrorKind.UnsupportedNetwork
  | ProviderMode.Pocket =>
      match t with
      | Transport.http =>
          if lbPrefixed cfg.projectId then
            Except.ok ("https://" ++ cfg.network ++ ".gateway.pokt.network/v1/lb/" ++
              lbStripped cfg.projectId)
          else
            Except.ok ("https://" ++ cfg.network ++ ".gateway.pokt.network/v1/" ++
              cfg.projectId)
      | Transport.ws => Except.error ConfigErrorKind.TransportUnsupported

/-- Modelled from the spec: the configuration invariant of spec section 3 —
in the hosted modes `network` and `projectId` must be non-empty; a missing
credential is a configuration error (spec section 7). -/
def validateConfig (cfg : SpecConfig) : Option ConfigErrorKind :=
  match cfg.mode with
  | ProviderMode.DirectURL => none
  | _ =>
      if cfg.network = "" then some ConfigErrorKind.UnsupportedNetwork
      else if cfg.projectId = "" then some ConfigErrorKind.MissingCredential
      else none

/-- Modelled from the spec: the human-readable diagnostic for each
configuration error. -/
def describeConfigError : ConfigErrorKind → String
  | ConfigErrorKind.MissingURL =>
      "no explicit provider URL was supplied for direct-URL mode"
  | ConfigErrorKind.UnsupportedNetwork =>
      "the configured network is not a supported named chain"
  | ConfigErrorKind.TransportUnsupported =>
      "the provider mode does not support this transport"
  | ConfigErrorKind.MalformedURL =>
      "the explicit provider URL is malformed"
  | ConfigErrorKind.MissingCredential =>
      "a project ID credential is required for the hosted provider mode"

/-- Modelled from the spec: the observable outcome of supervisor startup —
either a fatal exit with a status code and a diagnostic, or a running
process with the resolved endpoints and the possible HTTP-only notice. -/
inductive StartupOutcome
  | fatalExit (code : Nat) (message : String)
  | running (httpUrl : String) (wsUrl : Option String) (httpOnlyNoticeLogged : Bool)
deriving DecidableEq, Repr

/-- Modelled from the spec: the supervisor startup sequence of spec
section 4.4 — validate the configuration, resolve the HTTP endpoint (any
failure is fatal), then resolve the WS endpoint, degrading to HTTP-only
exactly when the failure is TransportUnsupported and no explicit WS URL was
supplied. -/
def supervisorStartup (cfg : SpecConfig) : StartupOutcome :=
  match validateConfig cfg with
  | some e => StartupOutcome.fatalExit 1 (describeConfigError e)
  | none =>
    match resolve cfg Transport.http with
    | Except.error e => StartupOutcome.fatalExit 1 (describeConfigError e)
    | Except.ok httpUrl =>
      match resolve cfg Transport.ws with
      | Except.ok wsUrl => StartupOutcome.running httpUrl (some wsUrl) false
      | Except.error ConfigErrorKind.TransportUnsupported =>
          if cfg.explicitWsUrl = "" then
            StartupOutcome.running httpUrl none true
          else
            StartupOutcome.fatalExit 1
              (describeConfigError ConfigErrorKind.TransportUnsupported)
      | Except.error e => StartupOutcome.fatalExit 1 (describeConfigError e)

end ProxySpec

section ClaimC

open ProxySpec

/-- C3: for every supported network and every projectId, Infura resolution
yields exactly `https://{network}.infura.io/v3/{projectId}` for HTTP and
`wss://{network}.infura.io/ws/v3/{projectId}` for WS; in particular for
network "goerli" and projectId "abc123" the results are
`https://goerli.infura.io/v3/abc123` and `wss://goerli.infura.io/ws/v3/abc123`. -/
theorem infura_resolution (cfg : SpecConfig)
    (hm : cfg.mode = ProviderMode.Infura)
    (hn : supportedNetworks.contains cfg.network = true) :
    resolve cfg Transport.http =
      Except.ok ("https://" ++ cfg.network ++ ".infura.io/v3/" ++ cfg.projectId) ∧
    resolve cfg Transport.ws =
      Except.ok ("wss://" ++ cfg.network ++ ".infura.io/ws/v3/" ++ cfg.projectId) ∧
    resolve
        { mode := ProviderMode.Infura, network := "goerli", projectId := "abc123",
          explicitHttpUrl := "", explicitWsUrl := "",
          httpPort := "8545", wsPort := "8546" } Transport.http =
      Except.ok "https://goerli.infura.io/v3/abc123" ∧
    resolve
        { mode := ProviderMode.Infura, network := "goerli", projectId := "abc123",
          explicitHttpUrl := "", explicitWsUrl := "",
          httpPort := "8545", wsPort := "8546" } Transport.ws =
      Except.ok "wss://goerli.infura.io/ws/v3/abc123" := by
  refine ⟨?_, ?_, rfl, rfl⟩ <;> · simp only [resolve, hm]; rw [hn]; rfl

/-- Witness for C3 at the concrete goerli / abc123 configuration. -/
theorem infura_resolution_witness :
    resolve
        { mode := ProviderMode.Infura, network := "goerli", projectId := "abc123",
          explicitHttpUrl := "", explicitWsUrl := "",
          httpPort := "8545", wsPort := "8546" } Transport.http =
      Except.ok ("https://" ++ "goerli" ++ ".infura.io/v3/" ++ "abc123") :=
  (infura_resolution
    { mode := ProviderMode.Infura, network := "goerli", projectId := "abc123",
      explicitHttpUrl := "", explicitWsUrl := "",
      httpPort := "8545", wsPort := "8546" } rfl (by decide)).1

/-- C4: for every network and projectId, Pocket HTTP resolution strips a
leading literal "lb/" from the projectId and composes the load-balancer
path `https://{network}.gateway.pokt.network/v1/lb/{id}` (the prefix is not
duplicated), and composes `https://{network}.gateway.pokt.network/v1/{id}`
when there is no such prefix; concretely, mainnet with "lb/xyz" resolves to
`https://mainnet.gateway.pokt.network/v1/lb/xyz` and mainnet with "xyz" to
`https://mainnet.gateway.pokt.network/v1/xyz`. -/
theorem pocket_resolution (cfg : SpecConfig)
    (hm : cfg.mode = ProviderMode.Pocket) :
    (lbPrefixed cfg.projectId = true →
      resolve cfg Transport.http =
        Except.ok ("https://" ++ cfg.network ++ ".gateway.pokt.network/v1/lb/" ++
          lbStripped cfg.projectId)) ∧
    (lbPrefixed cfg.projectId = false →
      resolve cfg Transport.http =
        Except.ok ("https://" ++ cfg.network ++ ".gateway.pokt.network/v1/" ++
          cfg.projectId)) ∧
    resolve
        { mode := ProviderMode.Pocket, network := "mainnet", projectId := "lb/xyz",
          explicitHttpUrl := "", explicitWsUrl := "",
          httpPort := "8545", wsPort := "8546" } Transport.http =
      Except.ok "https://mainnet.gateway.pokt.network/v1/lb/xyz" ∧
    resolve
        { mode := ProviderMode.Pocket, network := "mainnet", projectId := "xyz",
          explicitHttpUrl := "", explicitWsUrl := "",
          httpPort := "8545", wsPort := "8546" } Transport.http =
      Except.ok "https://mainnet.gateway.pokt.network/v1/xyz" := by
  refine ⟨?_, ?_, rfl, rfl⟩ <;> · intro h; simp only [resolve, hm]; rw [h]; rfl

/-- Witness for C4 at the concrete mainnet / lb-prefixed configuration. -/
theorem pocket_resolution_witness :
    resolve
        { mode := ProviderMode.Pocket, network := "mainnet", projectId := "lb/xyz",
          explicitHttpUrl := "", explicitWsUrl := "",
          httpPort := "8545", wsPort := "8546" } Transport.http =
      Except.ok ("https://" ++ "mainnet" ++ ".gateway.pokt.network/v1/lb/" ++
        lbStripped "lb/xyz") :=
  (pocket_resolution
    { mode := ProviderMode.Pocket, network := "mainnet", projectId := "lb/xyz",
      explicitHttpUrl := "", explicitWsUrl := "",
      httpPort := "8545", wsPort := "8546" } rfl).1 (by decide)

/-- C8: every resolver input whose network is not among the supported named
chains for its mode resolves to `ConfigError(UnsupportedNetwork)` on either
transport, and never to a composed URL. -/
theorem unsupported_network_rejected (cfg : SpecConfig) (t : Transport)
    (h : supportedFor cfg.mode cfg.network = false) :
    resolve cfg t = Except.error ConfigErrorKind.UnsupportedNetwork ∧
    ∀ u, resolve cfg t ≠ Except.ok u := by
  have hres : resolve cfg t = Except.error ConfigErrorKind.UnsupportedNetwork := by
    cases hm : cfg.mode <;> rw [hm] at h <;> simp [supportedFor] at h
    simp [resolve, hm, h]
  exact ⟨hres, fun u hu => by rw [hres] at hu; exact Except.noConfusion hu⟩

/-- Witness for C8 at a concrete Infura configuration on an unsupported
network. -/
theorem unsupported_network_rejected_witness :
    resolve
        { mode := ProviderMode.Infura, network := "sepolia", projectId := "abc",
          explicitHttpUrl := "", explicitWsUrl := "",
          httpPort := "8545", wsPort := "8546" } Transport.http =
      Except.error ConfigErrorKind.UnsupportedNetwork :=
  (unsupported_network_rejected
    { mode := ProviderMode.Infura, network := "sepolia", projectId := "abc",
      explicitHttpUrl := "", explicitWsUrl := "",
      httpPort := "8545", wsPort := "8546" } Transport.http (by decide)).1

end ClaimC

section ClaimD

open ProxySpec

/-- C2: every configuration error detected at startup — a failed
configuration invariant, an HTTP resolution failure, or a WS resolution
failure other than the documented Pocket/WS TransportUnsupported case with
no explicit WS URL — makes the supervisor exit with a non-zero status and a
non-empty diagnostic; the one documented case instead runs HTTP-only with
the notice logged. -/
theorem startup_config_errors_fatal (cfg : SpecConfig) :
    (∀ code msg, supervisorStartup cfg = StartupOutcome.fatalExit code msg →
      code ≠ 0 ∧ msg ≠ "") ∧
    (∀ e, validateConfig cfg = some e →
      supervisorStartup cfg = StartupOutcome.fatalExit 1 (describeConfigError e)) ∧
    (∀ e, validateConfig cfg = none →
      resolve cfg Transport.http = Except.error e →
      supervisorStartup cfg = StartupOutcome.fatalExit 1 (describeConfigError e)) ∧
    (∀ e httpUrl, validateConfig cfg = none →
      resolve cfg Transport.http = Except.ok httpUrl →
      resolve cfg Transport.ws = Except.error e →
      ¬(e = ConfigErrorKind.TransportUnsupported ∧ cfg.explicitWsUrl = "") →
      supervisorStartup cfg = StartupOutcome.fatalExit 1 (describeConfigError e)) ∧
    (∀ httpUrl, validateConfig cfg = none →
      resolve cfg Transport.http = Except.ok httpUrl →
      resolve cfg Transport.ws = Except.error ConfigErrorKind.TransportUnsupported →
      cfg.explicitWsUrl = "" →
      supervisorStartup cfg = StartupOutcome.running httpUrl none true) := by
  refine ⟨?_, ?_, ?_, ?_, ?_⟩
  · intro code msg h
    unfold supervisorStartup at h
    have hmsg : ∀ e : ConfigErrorKind, describeConfigError e ≠ "" := by
      intro e
      cases e <;> simp [describeConfigError]
    rcases hv : validateConfig cfg with _ | e
    · rw [hv] at h
      rcases hh : resolve cfg Transport.http with e | httpUrl
      · rw [hh] at h
        simp at h
        exact ⟨by omega, h.2 ▸ hmsg e⟩
      · rw [hh] at h
        rcases hw : resolve cfg Transport.ws with e | wsUrl
        · rw [hw] at h
          cases e
          case TransportUnsupported =>
            by_cases hws : cfg.explicitWsUrl = ""
            · simp [hws] at h
            · simp [hws] at h
              exact ⟨by omega, h.2 ▸ hmsg _⟩
          all_goals simp at h
          all_goals exact ⟨by omega, h.2 ▸ hmsg _⟩
        · rw [hw] at h
          simp at h
    · rw [hv] at h
      simp at h
      exact ⟨by omega, h.2 ▸ hmsg e⟩
  · intro e hv
    unfold supervisorStartup
    rw [hv]
  · intro e hv hh
    unfold supervisorStartup
    rw [hv, hh]
  · intro e httpUrl hv hh hw hne
    unfold supervisorStartup
    rw [hv, hh, hw]
    cases e <;> simp
    case TransportUnsupported =>
      intro hws
      exact absurd ⟨rfl, hws⟩ hne
  · intro httpUrl hv hh hw hws
    unfold supervisorStartup
    rw [hv, hh, hw]
    simp [hws]

/-- Witness for C2 at a concrete Infura configuration on an unsupported
network: startup is a fatal exit with the UnsupportedNetwork diagnostic. -/
theorem startup_config_errors_fatal_witness :
    supervisorStartup
        { mode := ProviderMode.Infura, network := "sepolia", projectId := "abc",
          explicitHttpUrl := "", explicitWsUrl := "",
          httpPort := "8545", wsPort := "8546" } =
      StartupOutcome.fatalExit 1
        (describeConfigError ConfigErrorKind.UnsupportedNetwork) :=
  (startup_config_errors_fatal
    { mode := ProviderMode.Infura, network := "sepolia", projectId := "abc",
      explicitHttpUrl := "", explicitWsUrl := "",
      httpPort := "8545", wsPort := "8546" }).2.2.1
    ConfigErrorKind.UnsupportedNetwork rfl rfl

end ClaimD

namespace ProxySpec

/-- Modelled from the spec: the possible outcomes of the single upstream
HTTP call made for one accepted request (spec section 4.2). -/
inductive UpstreamOutcome
  | ok (status : Nat) (body : String)
  | connectionRefused
  | timeout
  | dnsFailure
  | perCallTimeout
deriving DecidableEq, Repr

/-- Whether the upstream call could not be completed. -/
def isUpstreamFailure : UpstreamOutcome → Bool
  | UpstreamOutcome.ok _ _ => false
  | _ => true

/-- Modelled from the spec: the body a relay response carries back to the
local caller — either the upstream body copied unchanged, or a JSON-RPC
error envelope describing the failure. -/
inductive RelayBody
  | upstreamBody (b : String)
  | jsonRpcErrorEnvelope (message : String)
deriving DecidableEq, Repr

/-- A response of the HTTP relay to its local caller. -/
structure RelayResponse where
  status : Nat
  body : RelayBody
deriving DecidableEq, Repr

/-- Modelled from the spec: the description placed in the JSON-RPC error
envelope for each failure class. -/
def describeFailure : UpstreamOutcome → String
  | UpstreamOutcome.ok _ _ => ""
  | UpstreamOutcome.connectionRefused => "upstream connection refused"
  | UpstreamOutcome.timeout => "upstream request timed out"
  | UpstreamOutcome.dnsFailure => "upstream host could not be resolved"
  | UpstreamOutcome.perCallTimeout => "upstream call exceeded the per-call timeout"

/-- Modelled from the spec: the per-request handler of the HTTP relay (spec
section 4.2) — on success copy the upstream status and body back unchanged,
on any failure return a 502 status with a JSON-RPC error envelope. -/
def handleRequest : UpstreamOutcome → RelayResponse
  | UpstreamOutcome.ok st b =>
      { status := st, body := RelayBody.upstreamBody b }
  | o =>
      { status := 502, body := RelayBody.jsonRpcErrorEnvelope (describeFailure o) }

/-- Modelled from the spec: the listener serving a sequence of accepted
requests — each request is handled independently and the listener keeps
serving after every outcome. -/
def serveRequests (reqs : List UpstreamOutcome) : List RelayResponse :=
  reqs.map handleRequest

end ProxySpec

section ClaimE

open ProxySpec

/-- C7: every request whose upstream call cannot be completed gets a
well-formed 502 response carrying a JSON-RPC error envelope, and the
listener keeps serving: the failed request is answered in place and every
subsequent request still receives its own response. -/
theorem http_relay_failure_policy (o : UpstreamOutcome)
    (h : isUpstreamFailure o = true) :
    (handleRequest o).status = 502 ∧
    (∃ m, (handleRequest o).body = RelayBody.jsonRpcErrorEnvelope m) ∧
    (∀ rest, serveRequests (o :: rest) = handleRequest o :: serveRequests rest) ∧
    (∀ reqs, (serveRequests reqs).length = reqs.length) := by
  refine ⟨?_, ?_, fun rest => rfl, fun reqs => reqs.length_map handleRequest⟩
  · cases o <;> simp_all [isUpstreamFailure, handleRequest]
  · cases o <;> simp_all [isUpstreamFailure, handleRequest]

/-- Witness for C7 at a concrete timed-out upstream call followed by a
successful one. -/
theorem http_relay_failure_policy_witness :
    (handleRequest UpstreamOutcome.timeout).status = 502 ∧
    serveRequests [UpstreamOutcome.timeout, UpstreamOutcome.ok 200 "r"] =
      [handleRequest UpstreamOutcome.timeout,
        handleRequest (UpstreamOutcome.ok 200 "r")] :=
  let h := http_relay_failure_policy UpstreamOutcome.timeout rfl
  ⟨h.1, h.2.2.1 [UpstreamOutcome.ok 200 "r"]⟩

end ClaimE

namespace ProxySpec

/-- Modelled from the spec: the two forwarding loops of a relay pair (spec
section 4.3). -/
inductive LoopId
  | clientToUpstream
  | upstreamToClient
deriving DecidableEq, Repr

/-- Modelled from the spec: the state of one relay pair — whether each
physical connection is open and whether each forwarding loop is running. -/
structure RelayPair where
  clientOpen : Bool
  upstreamOpen : Bool
  clientLoopRunning : Bool
  upstreamLoopRunning : Bool
deriving DecidableEq, Repr

/-- Modelled from the spec: closing one physical connection — total and
idempotent, closing an already-closed connection is a no-op that never
panics or errors. -/
def closeConn (isOpen : Bool) : Bool := false

/-- Whether a given forwarding loop of the pair is running. -/
def loopRunning : LoopId → RelayPair → Bool
  | LoopId.clientToUpstream, p => p.clientLoopRunning
  | LoopId.upstreamToClient, p => p.upstreamLoopRunning

/-- The connection a loop reads frames from. -/
def readSideOpen : LoopId → RelayPair → Bool
  | LoopId.clientToUpstream, p => p.clientOpen
  | LoopId.upstreamToClient, p => p.upstreamOpen

/-- The connection a loop writes frames to. -/
def writeSideOpen : LoopId → RelayPair → Bool
  | LoopId.clientToUpstream, p => p.upstreamOpen
  | LoopId.upstreamToClient, p => p.clientOpen

/-- Stop one forwarding loop. -/
def stopLoop : LoopId → RelayPair → RelayPair
  | LoopId.clientToUpstream, p => { p with clientLoopRunning := false }
  | LoopId.upstreamToClient, p => { p with upstreamLoopRunning := false }

/-- Modelled from the spec: the teardown a loop performs when its read
observes an error or a clean close — close both connections of the pair
(idempotently) and stop itself. -/
def loopTeardown (i : LoopId) (p : RelayPair) : RelayPair :=
  stopLoop i
    { p with
      clientOpen := closeConn p.clientOpen
      upstreamOpen := closeConn p.upstreamOpen }

/-- The number of forwarding loops of the pair still running. -/
def runningCount (p : RelayPair) : Nat :=
  (if p.clientLoopRunning then 1 else 0) + (if p.upstreamLoopRunning then 1 else 0)

/-- Both physical connections of the pair are closed. -/
def bothClosed (p : RelayPair) : Prop :=
  p.clientOpen = false ∧ p.upstreamOpen = false

/-- Modelled from the spec: one step of a relay pair. A running loop either
forwards one frame (which requires both its read side and its write side to
be open and leaves the pair state unchanged), or its read fails — an
external transport error, a clean peer close, or a read on an
already-closed connection — and it performs the teardown. -/
inductive PairStep : RelayPair → RelayPair → Prop
  | forward (i : LoopId) (p : RelayPair)
      (hrun : loopRunning i p = true)
      (hread : readSideOpen i p = true)
      (hwrite : writeSideOpen i p = true) :
      PairStep p p
  | readFail (i : LoopId) (p : RelayPair)
      (hrun : loopRunning i p = true) :
      PairStep p (loopTeardown i p)

end ProxySpec

section ClaimF

open ProxySpec

/-- C5: termination coupling of a relay pair — close is idempotent and
total, so closing an already-closed connection never fails; the teardown a
loop performs on a read error or clean close leaves both connections closed
and that loop stopped; once both connections are closed every remaining
step strictly reduces the number of running loops while keeping both
connections closed (the surviving loop can only observe a failing read and
stop); and a pair state has a possible step exactly while some forwarding
loop is still running, so after teardown completes no forwarding task of
the pair is running. -/
theorem ws_pair_termination_coupling :
    (∀ b, closeConn (closeConn b) = closeConn b ∧ closeConn b = false) ∧
    (∀ i p, loopRunning i p = true →
      bothClosed (loopTeardown i p) ∧ loopRunning i (loopTeardown i p) = false) ∧
    (∀ p q, bothClosed p → PairStep p q →
      bothClosed q ∧ runningCount q < runningCount p) ∧
    (∀ p, (∃ q, PairStep p q) ↔ 0 < runningCount p) := by
  refine ⟨fun b => ⟨rfl, rfl⟩, ?_, ?_, ?_⟩
  · intro i p hrun
    cases i <;>
      exact ⟨⟨rfl, rfl⟩, rfl⟩
  · intro p q hclosed hstep
    cases hstep with
    | forward i p hrun hread hwrite =>
      exfalso
      cases i
      · rw [show readSideOpen LoopId.clientToUpstream p = p.clientOpen from rfl,
          hclosed.1] at hread
        exact Bool.noConfusion hread
      · rw [show readSideOpen LoopId.upstreamToClient p = p.upstreamOpen from rfl,
          hclosed.2] at hread
        exact Bool.noConfusion hread
    | readFail i p hrun =>
      cases i
      · have hc : p.clientLoopRunning = true := hrun
        exact ⟨⟨rfl, rfl⟩,
          by simp [loopTeardown, stopLoop, runningCount, closeConn, hc]⟩
      · have hu : p.upstreamLoopRunning = true := hrun
        exact ⟨⟨rfl, rfl⟩,
          by simp [loopTeardown, stopLoop, runningCount, closeConn, hu]⟩
  · intro p
    constructor
    · rintro ⟨q, hstep⟩
      cases hstep with
      | forward i p hrun hread hwrite =>
        cases i
        · have hc : p.clientLoopRunning = true := hrun
          simp [runningCount, hc]
        · have hu : p.upstreamLoopRunning = true := hrun
          simp [runningCount, hu]
      | readFail i p hrun =>
        cases i
        · have hc : p.clientLoopRunning = true := hrun
          simp [runningCount, hc]
        · have hu : p.upstreamLoopRunning = true := hrun
          simp [runningCount, hu]
    · intro hpos
      by_cases hc : p.clientLoopRunning = true
      · exact ⟨_, PairStep.readFail LoopId.clientToUpstream p hc⟩
      · have hcf : p.clientLoopRunning = false := by
          cases hcl : p.clientLoopRunning
          · rfl
          · exact absurd hcl hc
        have hu : p.upstreamLoopRunning = true := by
          by_contra hun
          have huf : p.upstreamLoopRunning = false := by
            cases hul : p.upstreamLoopRunning
            · rfl
            · exact absurd hul hun
          simp [runningCount, hcf, huf] at hpos
        exact ⟨_, PairStep.readFail LoopId.upstreamToClient p hu⟩

/-- Witness for C5 at a concrete live pair: the client-to-upstream loop
observes a failure, tears the pair down, and afterwards the surviving loop
can only stop; the fully-stopped pair admits no step. -/
theorem ws_pair_termination_coupling_witness :
    closeConn (closeConn true) = closeConn true ∧
    bothClosed
      (loopTeardown LoopId.clientToUpstream
        { clientOpen := true, upstreamOpen := true,
          clientLoopRunning := true, upstreamLoopRunning := true }) ∧
    (bothClosed
        { clientOpen := false, upstreamOpen := false,
          clientLoopRunning := false, upstreamLoopRunning := true } →
      ∀ q, PairStep
          { clientOpen := false, upstreamOpen := false,
            clientLoopRunning := false, upstreamLoopRunning := true } q →
        runningCount q < 1) ∧
    ¬(∃ q, PairStep
        { clientOpen := false, upstreamOpen := false,
          clientLoopRunning := false, upstreamLoopRunning := false } q) := by
  refine ⟨(ws_pair_termination_coupling.1 true).1, ?_, ?_, ?_⟩
  · exact (ws_pair_termination_coupling.2.1 LoopId.clientToUpstream
      { clientOpen := true, upstreamOpen := true,
        clientLoopRunning := true, upstreamLoopRunning := true } rfl).1
  · intro hclosed q hstep
    exact (ws_pair_termination_coupling.2.2.1 _ q hclosed hstep).2
  · intro hex
    have h := (ws_pair_termination_coupling.2.2.2
      { clientOpen := false, upstreamOpen := false,
        clientLoopRunning := false, upstreamLoopRunning := false }).1 hex
    simp [runningCount] at h

end ClaimF
